import Mathlib

/-!
# Tabs-in-titlebar controller (`src/windows/GuiTabInTitlebar.cpp`)

A shallow embedding of the class `GuiTabInTitlebar`: its constructor and the four
methods `handleWinEvent`, `setTabAreaCornerWidget`, `hitTestNCA` and
`handleWindowStateChangeEvent`.

Conventions of the embedding.

* `int`, `LONG`, `LRESULT` values are mathematical integers (`Int`); `/` on `int`
  truncates toward zero and is `Int.tdiv`.  The one product of the source, `3 * h` in
  `handleWindowStateChangeEvent`, is taken in 32 bits (`toInt32`), as the two's
  complement build takes it; sums and differences of coordinates are not reduced.
* Pointers to widgets are handles (`Nat`); a pointer that may be `NULL` is an `Option`.
  Dereferencing `NULL` is undefined behaviour: a method that does so returns `none`.
* Everything the class asks of the operating system, the compositor and the toolkit is
  an answer read from an `Env` (one per call) or from a `Style` (the metrics of
  `mainWindow->style()`).
* Every call made on `dwmApi`, `mainWindow` (setters), `tabArea`, `tabBar`,
  `tabAreaCornerWidget` and `SetWindowPos`, is recorded, in order, as a `Call`; entry
  into `hitTestNCA` is recorded too.
* `*result` is `Option Int`: `none` when the method returns without assigning it.
-/

set_option linter.unusedVariables false

namespace Qutty

/-! ## Platform constants (`winuser.h`, `qnamespace.h`) -/

/-- Hit-test code `HTNOWHERE`. -/
abbrev HTNOWHERE : Int := 0
/-- Hit-test code `HTCLIENT`. -/
abbrev HTCLIENT : Int := 1
/-- Hit-test code `HTCAPTION`. -/
abbrev HTCAPTION : Int := 2
/-- Hit-test code `HTLEFT`. -/
abbrev HTLEFT : Int := 10
/-- Hit-test code `HTRIGHT`. -/
abbrev HTRIGHT : Int := 11
/-- Hit-test code `HTTOP`. -/
abbrev HTTOP : Int := 12
/-- Hit-test code `HTTOPLEFT`. -/
abbrev HTTOPLEFT : Int := 13
/-- Hit-test code `HTTOPRIGHT`. -/
abbrev HTTOPRIGHT : Int := 14
/-- Hit-test code `HTBOTTOM`. -/
abbrev HTBOTTOM : Int := 15
/-- Hit-test code `HTBOTTOMLEFT`. -/
abbrev HTBOTTOMLEFT : Int := 16
/-- Hit-test code `HTBOTTOMRIGHT`. -/
abbrev HTBOTTOMRIGHT : Int := 17

/-- Message identifier `WM_ACTIVATE`. -/
abbrev WM_ACTIVATE : Nat := 0x0006
/-- Message identifier `WM_GETMINMAXINFO`. -/
abbrev WM_GETMINMAXINFO : Nat := 0x0024
/-- Message identifier `WM_NCCALCSIZE`. -/
abbrev WM_NCCALCSIZE : Nat := 0x0083
/-- Message identifier `WM_NCHITTEST`. -/
abbrev WM_NCHITTEST : Nat := 0x0084
/-- The `BOOL` value `TRUE`. -/
abbrev TRUE : Nat := 1
/-- The flag `Qt::WindowMaximized` of `Qt::WindowStates`. -/
abbrev WindowMaximized : Nat := 0x2

/-- The value a 32-bit `int` holds for the mathematical result `v`: `v` reduced modulo
2^32 into the range from -2^31 to 2^31 - 1. -/
def toInt32 (v : Int) : Int := (v + 2147483648) % 4294967296 - 2147483648

/-- The macro `LOWORD`: the low 16 bits of a parameter word. -/
def LOWORD (l : Int) : Int := l % 65536

/-- The macro `HIWORD`: bits 16..31 of a parameter word. -/
def HIWORD (l : Int) : Int := (l / 65536) % 65536

/-- The cast `(int)(short)` of a 16-bit word. -/
def toShort (w : Int) : Int := if w < 32768 then w else w - 65536

/-- The macro `GET_X_LPARAM` of `windowsx.h`. -/
def GET_X_LPARAM (lp : Int) : Int := toShort (LOWORD lp)

/-- The macro `GET_Y_LPARAM` of `windowsx.h`. -/
def GET_Y_LPARAM (lp : Int) : Int := toShort (HIWORD lp)

/-! ## Data -/

/-- The Win32 `RECT`. -/
structure RECT where
  left : Int
  top : Int
  right : Int
  bottom : Int
  deriving DecidableEq, Repr

/-- The Win32 `POINT`. -/
structure POINT where
  x : Int
  y : Int
  deriving DecidableEq, Repr

/-- The Win32 `MSG`, as far as the controller reads it. -/
structure MSG where
  hwnd : Nat
  message : Nat
  wParam : Nat
  lParam : Int
  deriving DecidableEq, Repr

/-- The `MARGINS` record of the compositor interface. -/
structure MARGINS where
  cxLeftWidth : Int
  cxRightWidth : Int
  cyTopHeight : Int
  cyBottomHeight : Int
  deriving DecidableEq, Repr

/-- The Win32 `MINMAXINFO`, the record a `WM_GETMINMAXINFO` message points to. -/
structure MINMAXINFO where
  ptReserved : POINT
  ptMaxSize : POINT
  ptMaxPosition : POINT
  ptMinTrackSize : POINT
  ptMaxTrackSize : POINT
  deriving DecidableEq, Repr

/-- The Qt `QRect`, stored as its two corners. -/
structure QRect where
  x1 : Int
  y1 : Int
  x2 : Int
  y2 : Int
  deriving DecidableEq, Repr

/-- The method `QRect::width()`. -/
def QRect.width (r : QRect) : Int := r.x2 - r.x1 + 1

/-- The method `QRect::height()`. -/
def QRect.height (r : QRect) : Int := r.y2 - r.y1 + 1

/-- The corner argument of `QTabWidget::setCornerWidget`. -/
inductive Corner where
  | TopLeftCorner
  | TopRightCorner
  deriving DecidableEq, Repr

/-- The calls the controller makes on its collaborators, and entry into the hit-test
emulator. -/
inductive Call where
  | dwmIsCompositionEnabled
  | dwmDefWindowProc (msg : MSG)
  | dwmExtendFrameIntoClientArea (hWnd : Nat) (margins : MARGINS)
  | setAttributeTranslucentBackground (enabled : Bool)
  | SetWindowPos (hwnd : Nat) (x y cx cy : Int)
  | setContentsMargins (left top right bottom : Int)
  | setCornerWidget (w : Option Nat) (corner : Corner)
  | cornerWidgetWidth (w : Nat)
  | cornerWidgetSizeHint (w : Nat)
  | tabAt (x y : Int)
  | hitTestNCA (msg : MSG)
  deriving DecidableEq, Repr

/-- The metrics of `mainWindow->style()->pixelMetric(..)`. -/
structure Style where
  PM_TitleBarHeight : Int
  PM_MdiSubWindowFrameWidth : Int
  deriving DecidableEq, Repr

/-- The answers of the operating system, the compositor and the toolkit during one call.
`dwmDefWindowProc msg` is the pair of the returned `BOOL` and the value of `lRet` after
the call; `rcFrame` is the rectangle `AdjustWindowRectEx` leaves in a zeroed `RECT` for
the style `WS_OVERLAPPEDWINDOW & ~WS_CAPTION`. -/
structure Env where
  dwmIsCompositionEnabled : Bool
  dwmDefWindowProc : MSG → Bool × Int
  dwmExtendFrameIntoClientArea : Nat → MARGINS → Int
  GetWindowRect : Nat → RECT
  rcFrame : RECT
  tabAt : Int → Int → Int
  width : Nat → Int
  sizeHintHeight : Nat → Int
  availableGeometry : QRect
  winId : Nat
  windowState : Nat

/-- The data members of `GuiTabInTitlebar` that the methods read or assign.  The
references `mainWindow`, `tabArea` and `tabBar` are fixed at construction and are the
receivers of the recorded calls. -/
structure GuiTabInTitlebar where
  tabAreaCornerWidget : Option Nat
  isCompositionEnabled : Bool
  tabbar_height : Int
  window_frame_width : Int
  titlebar_frame_width : Int
  deriving DecidableEq, Repr

/-- The indeterminate values the three `int` members hold before their first
assignment (the constructor has no initialiser for them). -/
structure Indeterminate where
  tabbar_height : Int
  window_frame_width : Int
  titlebar_frame_width : Int
  deriving DecidableEq, Repr

/-- What a message handler hands back: the returned `bool`, the value assigned to
`*result` if any, the `MINMAXINFO` record after the call, and the calls made. -/
structure Handled where
  ret : Bool
  result : Option Int
  mmi : MINMAXINFO
  calls : List Call
  deriving DecidableEq, Repr

/-! ## Methods -/

/-- Method `GuiTabInTitlebar::handleWindowStateChangeEvent` (lines 193-205).  The product
`3 * pixelMetric(..)` of line 201 is an `int`, and so is its quotient by 4. -/
def handleWindowStateChangeEvent (self : GuiTabInTitlebar) (sty : Style) (state : Nat) :
    GuiTabInTitlebar × List Call :=
  if state &&& WindowMaximized ≠ 0 then
    ({ self with window_frame_width := 0, titlebar_frame_width := 0 },
     [Call.setContentsMargins 0 0 0 0])
  else
    let w := sty.PM_MdiSubWindowFrameWidth
    let t := Int.tdiv (toInt32 (3 * sty.PM_TitleBarHeight)) 4
    ({ self with window_frame_width := w, titlebar_frame_width := t },
     [Call.setContentsMargins w t w w])

/-- The constructor `GuiTabInTitlebar::GuiTabInTitlebar` (lines 27-57). -/
def construct (env : Env) (sty : Style) (enable : Bool) (u : Indeterminate) :
    GuiTabInTitlebar × List Call :=
  let self0 : GuiTabInTitlebar :=
    { tabAreaCornerWidget := none
      isCompositionEnabled := false
      tabbar_height := u.tabbar_height
      window_frame_width := u.window_frame_width
      titlebar_frame_width := u.titlebar_frame_width }
  if !enable then (self0, [])
  else if !env.dwmIsCompositionEnabled then (self0, [Call.dwmIsCompositionEnabled])
  else
    let self1 := { self0 with isCompositionEnabled := true,
                              tabbar_height := sty.PM_TitleBarHeight }
    let hwnd := env.winId
    let rcClient := env.GetWindowRect hwnd
    let r := handleWindowStateChangeEvent self1 sty env.windowState
    (r.1,
     [Call.dwmIsCompositionEnabled,
      Call.setAttributeTranslucentBackground true,
      Call.SetWindowPos hwnd rcClient.left rcClient.top
        (rcClient.right - rcClient.left) (rcClient.bottom - rcClient.top)] ++ r.2)

/-- The table `hitTests[3][3]` of `hitTestNCA` (lines 182-187), indexed by `uRow` and
`uCol`, both of which are 0, 1 or 2. -/
def hitTests (rcWindow rcFrame : RECT) (y : Int) : Nat → Nat → Int
  | 0, 0 => HTTOPLEFT
  | 0, 1 => if y < rcWindow.top - rcFrame.top then HTTOP else HTCAPTION
  | 0, _ => HTTOPRIGHT
  | 1, 0 => HTLEFT
  | 1, 1 => HTNOWHERE
  | 1, _ => HTRIGHT
  | _, 0 => HTBOTTOMLEFT
  | _, 1 => HTBOTTOM
  | _, _ => HTBOTTOMRIGHT

/-- The value of `uRow` after lines 167-174 of `hitTestNCA`. -/
def uRow (self : GuiTabInTitlebar) (rcWindow : RECT) (y : Int) : Nat :=
  if y ≥ rcWindow.top ∧ y < rcWindow.top + self.titlebar_frame_width + self.tabbar_height then 0
  else if y < rcWindow.bottom ∧ y ≥ rcWindow.bottom - self.window_frame_width then 2
  else 1

/-- The value of `uCol` after lines 168-180 of `hitTestNCA`. -/
def uCol (self : GuiTabInTitlebar) (rcWindow : RECT) (x : Int) : Nat :=
  if x ≥ rcWindow.left ∧ x < rcWindow.left + self.window_frame_width then 0
  else if x < rcWindow.right ∧ x ≥ rcWindow.right - self.window_frame_width then 2
  else 1

/-- Lines 167-190 of `hitTestNCA`: the grid lookup, the assignment to `*result` and the
returned `*result != HTNOWHERE`; `calls` are the calls made before. -/
def hitTestGrid (self : GuiTabInTitlebar) (rcWindow rcFrame : RECT) (x y : Int)
    (mmi : MINMAXINFO) (calls : List Call) : Handled :=
  let r := hitTests rcWindow rcFrame y (uRow self rcWindow y) (uCol self rcWindow x)
  { ret := r != HTNOWHERE, result := some r, mmi := mmi, calls := calls }

/-- Method `GuiTabInTitlebar::hitTestNCA` (lines 138-191).  `none` is the undefined behaviour
of `tabAreaCornerWidget->width()` on a `NULL` corner widget. -/
def hitTestNCA (self : GuiTabInTitlebar) (env : Env) (msg : MSG) (mmi : MINMAXINFO) :
    Option Handled :=
  let rcWindow := env.GetWindowRect msg.hwnd
  let rcFrame := env.rcFrame
  let d := env.dwmDefWindowProc msg
  let calls := [Call.hitTestNCA msg, Call.dwmDefWindowProc msg]
  if d.1 then
    some { ret := true, result := some d.2, mmi := mmi, calls := calls }
  else
    let x := GET_X_LPARAM msg.lParam
    let y := GET_Y_LPARAM msg.lParam
    let px := x - rcWindow.left - self.window_frame_width
    let py := y - rcWindow.top - self.titlebar_frame_width
    if px ≥ 0 ∧ py ≥ 0 ∧ py ≤ self.tabbar_height then
      match self.tabAreaCornerWidget with
      | none => none
      | some w =>
        if px ≤ env.width w then
          some { ret := true, result := some HTCLIENT, mmi := mmi,
                 calls := calls ++ [Call.cornerWidgetWidth w] }
        else if env.tabAt (px - env.width w) py ≠ -1 then
          some { ret := true, result := some HTCLIENT, mmi := mmi,
                 calls := calls ++ [Call.cornerWidgetWidth w, Call.cornerWidgetWidth w,
                                    Call.tabAt (px - env.width w) py] }
        else
          some (hitTestGrid self rcWindow rcFrame x y mmi
                  (calls ++ [Call.cornerWidgetWidth w, Call.cornerWidgetWidth w,
                             Call.tabAt (px - env.width w) py]))
    else
      some (hitTestGrid self rcWindow rcFrame x y mmi calls)

/-- Method `GuiTabInTitlebar::handleWinEvent` (lines 59-124).  `mmi` is the record `lParam`
points to when the message is `WM_GETMINMAXINFO`. -/
def handleWinEvent (self : GuiTabInTitlebar) (env : Env) (msg : MSG) (mmi : MINMAXINFO) :
    Option Handled :=
  if !self.isCompositionEnabled then
    some { ret := false, result := none, mmi := mmi, calls := [] }
  else if msg.message = WM_NCHITTEST then
    hitTestNCA self env msg mmi
  else
    let d := env.dwmDefWindowProc msg
    let fCallDWP0 : Bool := !d.1
    let lRet0 : Int := d.2
    -- Handle window activation.
    let isActivate : Bool := msg.message = WM_ACTIVATE
    let margins : MARGINS :=
      { cxLeftWidth := -1, cxRightWidth := -1, cyBottomHeight := -1, cyTopHeight := -1 }
    let hr := env.dwmExtendFrameIntoClientArea msg.hwnd margins
    let calls1 : List Call :=
      if isActivate then [Call.dwmExtendFrameIntoClientArea msg.hwnd margins] else []
    let fCallDWP1 : Bool := if isActivate then true else fCallDWP0
    let lRet1 : Int := if isActivate then 0 else lRet0
    -- Handle the non-client size message.
    let isCalcSize : Bool := msg.message = WM_NCCALCSIZE ∧ msg.wParam = TRUE
    let lRet2 : Int := if isCalcSize then 0 else lRet1
    let fCallDWP2 : Bool := if isCalcSize then false else fCallDWP1
    let isMinMax : Bool := msg.message = WM_GETMINMAXINFO
    let rect := env.availableGeometry
    let mmi3 : MINMAXINFO :=
      if isMinMax then
        { mmi with ptMaxSize := { x := rect.width, y := rect.height - 1 },
                   ptMaxPosition := { x := 0, y := 0 } }
      else mmi
    let lRet3 : Int := if isMinMax then 0 else lRet2
    let fCallDWP3 : Bool := if isMinMax then false else fCallDWP2
    some { ret := !fCallDWP3
           result := if !fCallDWP3 then some lRet3 else none
           mmi := mmi3
           calls := Call.dwmDefWindowProc msg :: calls1 }

/-- Method `GuiTabInTitlebar::setTabAreaCornerWidget` (lines 126-136).  `none` is the undefined
behaviour of `tabAreaCornerWidget->sizeHint()` when `w` is `NULL`. -/
def setTabAreaCornerWidget (self : GuiTabInTitlebar) (env : Env) (w : Option Nat) :
    Option (GuiTabInTitlebar × List Call) :=
  if !self.isCompositionEnabled then
    some (self, [Call.setCornerWidget w Corner.TopRightCorner])
  else
    match w with
    | none => none
    | some v =>
      some ({ self with tabAreaCornerWidget := some v,
                        tabbar_height := env.sizeHintHeight v },
            [Call.setCornerWidget (some v) Corner.TopLeftCorner, Call.cornerWidgetSizeHint v])

/-! ## Sequences of operations -/

/-- One call on the controller's public interface. -/
inductive Op where
  | handleWindowStateChangeEvent (state : Nat)
  | handleWinEvent (msg : MSG) (mmi : MINMAXINFO)
  | setTabAreaCornerWidget (w : Option Nat)
  deriving DecidableEq, Repr

/-- The controller together with every call it has made so far, oldest first. -/
structure World where
  self : GuiTabInTitlebar
  trace : List Call
  deriving DecidableEq, Repr

/-- The world right after construction. -/
def World.init (env : Env) (sty : Style) (enable : Bool) (u : Indeterminate) : World :=
  let r := construct env sty enable u
  { self := r.1, trace := r.2 }

/-- One operation, under the answers `env` of the collaborators during it. -/
def step (sty : Style) (wd : World) (env : Env) : Op → Option World
  | Op.handleWindowStateChangeEvent state =>
    let r := handleWindowStateChangeEvent wd.self sty state
    some { self := r.1, trace := wd.trace ++ r.2 }
  | Op.handleWinEvent msg mmi =>
    (handleWinEvent wd.self env msg mmi).map fun h =>
      { self := wd.self, trace := wd.trace ++ h.calls }
  | Op.setTabAreaCornerWidget w =>
    (setTabAreaCornerWidget wd.self env w).map fun r =>
      { self := r.1, trace := wd.trace ++ r.2 }

/-- A sequence of operations, each with the collaborators' answers during it. -/
def run (sty : Style) (wd : World) : List (Env × Op) → Option World
  | [] => some wd
  | (env, op) :: rest =>
    match step sty wd env op with
    | none => none
    | some wd1 => run sty wd1 rest

/-- The content margins of the host window after one more call: a `setContentsMargins`
call replaces them, any other call leaves them. -/
def applyCall (m : Option (Int × Int × Int × Int)) : Call → Option (Int × Int × Int × Int)
  | Call.setContentsMargins l t r b => some (l, t, r, b)
  | _ => m

/-- The margins of the last `setContentsMargins` call of a trace, if there is one: the
content margins the host window has by the controller's doing. -/
def appliedMargins (trace : List Call) : Option (Int × Int × Int × Int) :=
  trace.foldl applyCall none

/-- The number of `setContentsMargins` calls of a trace. -/
def marginCalls : List Call → Nat
  | [] => 0
  | Call.setContentsMargins _ _ _ _ :: rest => marginCalls rest + 1
  | _ :: rest => marginCalls rest

/-- The window state the controller has seen last: the state at construction, or the
argument of the latest `handleWindowStateChangeEvent`. -/
def lastState (state0 : Nat) : List (Env × Op) → Nat
  | [] => state0
  | (_, Op.handleWindowStateChangeEvent s) :: rest => lastState s rest
  | _ :: rest => lastState state0 rest

/-- The geometry invariant of the data model, for the window state `state` seen last:
the content margins last applied are `(windowFrameWidth, titlebarFrameWidth,
windowFrameWidth, windowFrameWidth)`, and the frame widths are those of the maximized
profile (both zero) when the maximized flag of `state` is set and those of the normal
profile (border metric, the `int` value of `3*h/4` for the caption height `h`)
otherwise. -/
def GeometryInvariant (sty : Style) (state : Nat) (wd : World) : Prop :=
  appliedMargins wd.trace
      = some (wd.self.window_frame_width, wd.self.titlebar_frame_width,
              wd.self.window_frame_width, wd.self.window_frame_width)
  ∧ (state.testBit 1 = true →
      wd.self.window_frame_width = 0 ∧ wd.self.titlebar_frame_width = 0)
  ∧ (state.testBit 1 = false →
      wd.self.window_frame_width = sty.PM_MdiSubWindowFrameWidth
      ∧ wd.self.titlebar_frame_width = Int.tdiv (toInt32 (3 * sty.PM_TitleBarHeight)) 4)

/-! ## Worked examples -/

/-- The macro `MAKELPARAM`: the parameter word that carries the point `(x, y)`. -/
def MAKELPARAM (x y : Int) : Int := x % 65536 + 65536 * (y % 65536)

/-- A desktop for the worked examples: the window rectangle is `rc`, the system frame of
a caption-less overlapped window is `frame` pixels on every side, the tab strip answers
`tabAt`, the default non-client handling answers `dwm`, every widget is `cw` pixels wide
and prefers a height of 30, and the work area is 1920 by 1040 at the origin. -/
def exampleEnv (rc : RECT) (frame : Int) (tabAt : Int → Int → Int) (dwm : Bool × Int)
    (cw : Int) : Env :=
  { dwmIsCompositionEnabled := true
    dwmDefWindowProc := fun _ => dwm
    dwmExtendFrameIntoClientArea := fun _ _ => 0
    GetWindowRect := fun _ => rc
    rcFrame := { left := -frame, top := -frame, right := frame, bottom := frame }
    tabAt := tabAt
    width := fun _ => cw
    sizeHintHeight := fun _ => 30
    availableGeometry := { x1 := 0, y1 := 0, x2 := 1919, y2 := 1039 }
    winId := 1
    windowState := 0 }

/-- The window rectangle `(100,100)-(900,700)` of the worked examples. -/
def exampleRect : RECT := { left := 100, top := 100, right := 900, bottom := 700 }

/-- A controller in the normal profile of the worked examples: frame width 8, title bar
frame 24, tab strip height 30, corner widget `cw`. -/
def exampleSelf (cw : Option Nat) : GuiTabInTitlebar :=
  { tabAreaCornerWidget := cw
    isCompositionEnabled := true
    tabbar_height := 30
    window_frame_width := 8
    titlebar_frame_width := 24 }

/-- A hit-test message for the point `(x, y)`. -/
def hitTestMsg (x y : Int) : MSG :=
  { hwnd := 1, message := WM_NCHITTEST, wParam := 0, lParam := MAKELPARAM x y }

/-- A `MINMAXINFO` record of zeros. -/
def zeroMMI : MINMAXINFO :=
  { ptReserved := ⟨0, 0⟩, ptMaxSize := ⟨0, 0⟩, ptMaxPosition := ⟨0, 0⟩,
    ptMinTrackSize := ⟨0, 0⟩, ptMaxTrackSize := ⟨0, 0⟩ }

/-- A tab strip of three tabs, each 100 pixels wide, answering on rows 0 to 30. -/
def threeTabs (x y : Int) : Int :=
  if 0 ≤ x ∧ x < 300 ∧ 0 ≤ y ∧ y ≤ 30 then x / 100 else -1

/-- A tab strip with no tab anywhere. -/
def noTabs (_ _ : Int) : Int := -1

/-- The style metrics of the worked examples: caption height 30, border 8. -/
def exampleStyle : Style := { PM_TitleBarHeight := 30, PM_MdiSubWindowFrameWidth := 8 }

/-- The indeterminate member values of the worked examples. -/
def exampleGarbage : Indeterminate :=
  { tabbar_height := -7, window_frame_width := 12345, titlebar_frame_width := -1 }

/-- The desktop of the worked examples with the compositor switched off. -/
def exampleEnvNoDwm : Env :=
  { exampleEnv exampleRect 8 threeTabs (false, 0) 16 with dwmIsCompositionEnabled := false }

/-- A session: maximize, activate, set the corner widget 7, hit-test the point
`(380, 154)`, query the maximum size, restore. -/
def exampleSteps : List (Env × Op) :=
  [(exampleEnv exampleRect 8 threeTabs (false, 0) 16,
      Op.handleWindowStateChangeEvent WindowMaximized),
   (exampleEnv exampleRect 8 threeTabs (false, 0) 16,
      Op.handleWinEvent { hwnd := 1, message := WM_ACTIVATE, wParam := 1, lParam := 0 }
        zeroMMI),
   (exampleEnv exampleRect 8 threeTabs (false, 0) 16, Op.setTabAreaCornerWidget (some 7)),
   (exampleEnv exampleRect 8 threeTabs (false, 0) 16,
      Op.handleWinEvent (hitTestMsg 380 154) zeroMMI),
   (exampleEnv exampleRect 8 threeTabs (false, 0) 16,
      Op.handleWinEvent { hwnd := 1, message := WM_GETMINMAXINFO, wParam := 0, lParam := 0 }
        zeroMMI),
   (exampleEnv exampleRect 8 threeTabs (false, 0) 16, Op.handleWindowStateChangeEvent 0)]

/-- Message identifier `WM_NCLBUTTONDOWN` of `winuser.h`, a message `handleWinEvent` has
no case for. -/
abbrev WM_NCLBUTTONDOWN : Nat := 0x00A1

/-- A maximum-size query. -/
def minMaxMsg : MSG := { hwnd := 1, message := WM_GETMINMAXINFO, wParam := 0, lParam := 0 }

/-- An activation message. -/
def activateMsg : MSG := { hwnd := 1, message := WM_ACTIVATE, wParam := 1, lParam := 0 }

/-- A non-client size calculation with `wParam == TRUE`. -/
def calcSizeMsg : MSG := { hwnd := 1, message := WM_NCCALCSIZE, wParam := TRUE, lParam := 0 }

/-- A left-button press on the non-client area at the point `(880, 110)`. -/
def buttonDownMsg : MSG :=
  { hwnd := 1, message := WM_NCLBUTTONDOWN, wParam := 20, lParam := MAKELPARAM 880 110 }

/-- The desktop of the worked examples on a 1920 by 1080 monitor whose taskbar, 40 pixels
high, is docked at the top: the work area is `(0,40)-(1919,1079)`. -/
def topTaskbarEnv : Env :=
  { exampleEnv exampleRect 8 threeTabs (false, 0) 16 with
    availableGeometry := { x1 := 0, y1 := 40, x2 := 1919, y2 := 1079 } }

/-- The desktop of the worked examples with a compositor that rejects every
frame-extension request (`E_FAIL`) and whose default handling answers "handled, 77". -/
def failingExtendEnv : Env :=
  { exampleEnv exampleRect 8 threeTabs (true, 77) 16 with
    dwmExtendFrameIntoClientArea := fun _ _ => -2147467259 }

/-- A style whose caption height is 2^30 pixels, with border 8. -/
def hugeCaptionStyle : Style :=
  { PM_TitleBarHeight := 1073741824, PM_MdiSubWindowFrameWidth := 8 }

/-- What `hitTestNCA` does once the default handling has reported nothing and the
caption-band client rule has not claimed the point: it answers from the grid. -/
theorem hitTestNCA_grid (self : GuiTabInTitlebar) (env : Env) (msg : MSG) (mmi : MINMAXINFO)
    (hdwm : (env.dwmDefWindowProc msg).1 = false)
    (hfree :
      ¬ (0 ≤ GET_X_LPARAM msg.lParam - (env.GetWindowRect msg.hwnd).left
              - self.window_frame_width
          ∧ 0 ≤ GET_Y_LPARAM msg.lParam - (env.GetWindowRect msg.hwnd).top
              - self.titlebar_frame_width
          ∧ GET_Y_LPARAM msg.lParam - (env.GetWindowRect msg.hwnd).top
              - self.titlebar_frame_width ≤ self.tabbar_height)
      ∨ ∃ w, self.tabAreaCornerWidget = some w
          ∧ env.width w < GET_X_LPARAM msg.lParam - (env.GetWindowRect msg.hwnd).left
              - self.window_frame_width
          ∧ env.tabAt (GET_X_LPARAM msg.lParam - (env.GetWindowRect msg.hwnd).left
              - self.window_frame_width - env.width w)
              (GET_Y_LPARAM msg.lParam - (env.GetWindowRect msg.hwnd).top
              - self.titlebar_frame_width) = -1) :
    ∃ calls, hitTestNCA self env msg mmi
      = some (hitTestGrid self (env.GetWindowRect msg.hwnd) env.rcFrame
          (GET_X_LPARAM msg.lParam) (GET_Y_LPARAM msg.lParam) mmi calls) := by
  unfold hitTestNCA
  simp only [hdwm, Bool.false_eq_true, if_false]
  rcases hfree with hout | ⟨w, hw, hwidth, htab⟩
  · rw [if_neg (by simpa [ge_iff_le] using hout)]
    exact ⟨_, rfl⟩
  · by_cases hband :
        GET_X_LPARAM msg.lParam - (env.GetWindowRect msg.hwnd).left
            - self.window_frame_width ≥ 0
          ∧ GET_Y_LPARAM msg.lParam - (env.GetWindowRect msg.hwnd).top
            - self.titlebar_frame_width ≥ 0
          ∧ GET_Y_LPARAM msg.lParam - (env.GetWindowRect msg.hwnd).top
            - self.titlebar_frame_width ≤ self.tabbar_height
    · rw [if_pos hband]
      simp only [hw]
      rw [if_neg (not_le.mpr hwidth), if_neg (by simp [htab])]
      exact ⟨_, rfl⟩
    · rw [if_neg hband]
      exact ⟨_, rfl⟩

/-! ## The hit-test emulator -/

/-- C1: when the default hit-test reports nothing, a point whose window-local
coordinates `p = (x - rcWindow.left - windowFrameWidth, y - rcWindow.top -
titlebarFrameWidth)` satisfy `p.x >= 0` and `0 <= p.y <= tabStripHeight` (boundary
included), and which is within the corner widget's width or over a tab, is answered
`HTCLIENT` and handled, whatever its grid cell. -/
theorem C1_caption_band_is_client (self : GuiTabInTitlebar) (env : Env) (msg : MSG)
    (mmi : MINMAXINFO) (w : Nat) (rc : RECT) (x y : Int)
    (hrc : env.GetWindowRect msg.hwnd = rc)
    (hx : GET_X_LPARAM msg.lParam = x) (hy : GET_Y_LPARAM msg.lParam = y)
    (hdwm : (env.dwmDefWindowProc msg).1 = false)
    (hcw : self.tabAreaCornerWidget = some w)
    (hpx : 0 ≤ x - rc.left - self.window_frame_width)
    (hpy0 : 0 ≤ y - rc.top - self.titlebar_frame_width)
    (hpy1 : y - rc.top - self.titlebar_frame_width ≤ self.tabbar_height)
    (hover : x - rc.left - self.window_frame_width ≤ env.width w
      ∨ env.tabAt (x - rc.left - self.window_frame_width - env.width w)
          (y - rc.top - self.titlebar_frame_width) ≠ -1) :
    (hitTestNCA self env msg mmi).map (fun h => (h.ret, h.result))
      = some (true, some HTCLIENT) := by
  subst hrc hx hy
  unfold hitTestNCA
  simp only [hdwm, Bool.false_eq_true, if_false]
  rw [if_pos ⟨hpx, hpy0, hpy1⟩]
  simp only [hcw]
  by_cases hwd : GET_X_LPARAM msg.lParam - (env.GetWindowRect msg.hwnd).left
      - self.window_frame_width ≤ env.width w
  · rw [if_pos hwd]; rfl
  · rw [if_neg hwd]
    rcases hover with h | h
    · exact absurd h hwd
    · rw [if_pos h]; rfl

/-- C1 at the boundary `p.y = tabStripHeight` over tab index 2: window
`(100,100)-(900,700)`, frame widths 8 and 24, tab strip height 30, corner widget 16
wide, point `(380, 154)`, so `p = (272, 30)` and the tab strip is asked at `(256, 30)`. -/
theorem C1_caption_band_is_client_witness :
    threeTabs 256 30 = 2
    ∧ (hitTestNCA (exampleSelf (some 7)) (exampleEnv exampleRect 8 threeTabs (false, 0) 16)
        (hitTestMsg 380 154) zeroMMI).map (fun h => (h.ret, h.result))
      = some (true, some HTCLIENT) :=
  ⟨by decide,
   C1_caption_band_is_client (exampleSelf (some 7))
     (exampleEnv exampleRect 8 threeTabs (false, 0) 16) (hitTestMsg 380 154) zeroMMI
     7 exampleRect 380 154 rfl (by decide) (by decide) rfl rfl (by decide) (by decide)
     (by decide) (Or.inr (by decide))⟩

/-- C4: whenever the default non-client handling reports the hit-test message as
handled with result `r`, `hitTestNCA` returns handled with result exactly `r`; it has
then called nothing but the default handling (neither the corner widget nor the tab
strip is asked), for every point, window rectangle and geometry state, a corner widget
being set or not. -/
theorem C4_default_hit_test_wins (self : GuiTabInTitlebar) (env : Env) (msg : MSG)
    (mmi : MINMAXINFO) (r : Int) (hdwm : env.dwmDefWindowProc msg = (true, r)) :
    hitTestNCA self env msg mmi
      = some { ret := true, result := some r, mmi := mmi,
               calls := [Call.hitTestNCA msg, Call.dwmDefWindowProc msg] } := by
  unfold hitTestNCA
  simp [hdwm]

/-- C4 at a point inside the caption band over a tab, `(380, 154)`, with no corner
widget set and the default handling answering 20 (the close button). -/
theorem C4_default_hit_test_wins_witness :
    hitTestNCA (exampleSelf none) (exampleEnv exampleRect 8 threeTabs (true, 20) 16)
        (hitTestMsg 380 154) zeroMMI
      = some { ret := true, result := some 20, mmi := zeroMMI,
               calls := [Call.hitTestNCA (hitTestMsg 380 154),
                         Call.dwmDefWindowProc (hitTestMsg 380 154)] } :=
  C4_default_hit_test_wins (exampleSelf none)
    (exampleEnv exampleRect 8 threeTabs (true, 20) 16) (hitTestMsg 380 154) zeroMMI 20 rfl

/-- The test `state & Qt::WindowMaximized` is non-zero exactly when bit 1 of the state,
the maximized flag, is set. -/
theorem maximized_iff_testBit (s : Nat) : s &&& WindowMaximized ≠ 0 ↔ s.testBit 1 = true := by
  have h := Nat.and_two_pow s 1
  simp only [pow_one] at h
  show s &&& 2 ≠ 0 ↔ _
  rw [h]
  cases s.testBit 1 <;> simp

/-- A product that fits in a 32-bit `int` is held as it is. -/
theorem toInt32_of_fits (v : Int) (hlo : -2147483648 ≤ v) (hhi : v ≤ 2147483647) :
    toInt32 v = v := by
  unfold toInt32
  omega

/-- C6 as stated fails at the caption height `h = 2^30` (border 8, normal state 0): the
product `3 * h` does not fit in an `int`, `handleWindowStateChangeEvent` stores
`titlebarFrameWidth = -268435456` and applies margins `(8, -268435456, 8, 8)`, while the
integer quotient `3*h/4` is 805306368. -/
theorem C6_state_change_profiles_counterexample :
    Nat.testBit 0 1 = false
    ∧ handleWindowStateChangeEvent (exampleSelf none) hugeCaptionStyle 0
      = ({ exampleSelf none with window_frame_width := 8,
                                 titlebar_frame_width := -268435456 },
         [Call.setContentsMargins 8 (-268435456) 8 8])
    ∧ Int.tdiv (3 * hugeCaptionStyle.PM_TitleBarHeight) 4 = 805306368
    ∧ (3 * hugeCaptionStyle.PM_TitleBarHeight) / 4 = 805306368
    ∧ (-268435456 : Int) ≠ 805306368 := by
  refine ⟨by decide, by decide, by decide, by decide, by decide⟩

/-- C6, amended: if the window state has the maximized flag set,
`handleWindowStateChangeEvent` sets both frame widths to 0 and applies content margins
`(0, 0, 0, 0)`; otherwise it sets `windowFrameWidth = w` and `titlebarFrameWidth = t` and
applies content margins `(w, t, w, w)`, where `t` is the integer quotient `3*h/4`
(truncating, as `/` on `int` does) whenever the product `3*h` fits in a 32-bit `int`;
in both cases it makes this one call and leaves the other members as they were. -/
theorem C6_state_change_profiles_amended (self : GuiTabInTitlebar) (w h : Int) (s : Nat) :
    (s.testBit 1 = true →
      handleWindowStateChangeEvent self
          { PM_TitleBarHeight := h, PM_MdiSubWindowFrameWidth := w } s
        = ({ self with window_frame_width := 0, titlebar_frame_width := 0 },
           [Call.setContentsMargins 0 0 0 0]))
    ∧ (s.testBit 1 = false →
      ∃ t, handleWindowStateChangeEvent self
          { PM_TitleBarHeight := h, PM_MdiSubWindowFrameWidth := w } s
        = ({ self with window_frame_width := w, titlebar_frame_width := t },
           [Call.setContentsMargins w t w w])
        ∧ (-2147483648 ≤ 3 * h → 3 * h ≤ 2147483647 → t = Int.tdiv (3 * h) 4)) := by
  constructor
  · intro hs
    have hm := (maximized_iff_testBit s).mpr hs
    simp only [handleWindowStateChangeEvent]
    rw [if_pos hm]
  · intro hs
    have hm : ¬ (s &&& WindowMaximized ≠ 0) := by
      rw [maximized_iff_testBit, hs]; simp
    refine ⟨Int.tdiv (toInt32 (3 * h)) 4, ?_, ?_⟩
    · simp only [handleWindowStateChangeEvent]
      rw [if_neg hm]
    · intro hlo hhi
      rw [toInt32_of_fits _ hlo hhi]

/-- C6 amended, with border metric 8 and caption height 30 on the controller of the
worked examples: state 2 (maximized) gives widths 0 and margins `(0,0,0,0)`; state 0
(normal) gives widths 8 and 22 and margins `(8,22,8,8)`. -/
theorem C6_state_change_profiles_amended_witness :
    handleWindowStateChangeEvent (exampleSelf none)
        { PM_TitleBarHeight := 30, PM_MdiSubWindowFrameWidth := 8 } 2
      = ({ exampleSelf none with window_frame_width := 0, titlebar_frame_width := 0 },
         [Call.setContentsMargins 0 0 0 0])
    ∧ handleWindowStateChangeEvent (exampleSelf none)
        { PM_TitleBarHeight := 30, PM_MdiSubWindowFrameWidth := 8 } 0
      = ({ exampleSelf none with window_frame_width := 8, titlebar_frame_width := 22 },
         [Call.setContentsMargins 8 22 8 8]) := by
  refine ⟨(C6_state_change_profiles_amended (exampleSelf none) 8 30 2).1 (by decide), ?_⟩
  obtain ⟨t, ht, hq⟩ :=
    (C6_state_change_profiles_amended (exampleSelf none) 8 30 0).2 (by decide)
  have h22 : t = 22 := by rw [hq (by decide) (by decide)]; decide
  rw [ht, h22]

/-- C7: with the style metrics fixed, a second `handleWindowStateChangeEvent(s)` right
after the first leaves the controller as the first left it, and the content margins
applied to the host window (after any earlier calls `tr`) are the same after two calls
as after one. -/
theorem C7_state_change_idempotent (self : GuiTabInTitlebar) (sty : Style) (s : Nat)
    (tr : List Call) :
    (handleWindowStateChangeEvent (handleWindowStateChangeEvent self sty s).1 sty s).1
      = (handleWindowStateChangeEvent self sty s).1
    ∧ appliedMargins (tr ++ (handleWindowStateChangeEvent self sty s).2
        ++ (handleWindowStateChangeEvent (handleWindowStateChangeEvent self sty s).1 sty s).2)
      = appliedMargins (tr ++ (handleWindowStateChangeEvent self sty s).2) := by
  by_cases hm : s &&& WindowMaximized ≠ 0
  · simp [handleWindowStateChangeEvent, hm, appliedMargins, applyCall]
  · simp [handleWindowStateChangeEvent, hm, appliedMargins, applyCall]

/-! ## Traces and sequences of operations -/

/-- Calls other than `setContentsMargins` leave the applied margins as they are. -/
theorem foldl_applyCall_of_marginCalls_zero (calls : List Call)
    (m : Option (Int × Int × Int × Int)) (h : marginCalls calls = 0) :
    calls.foldl applyCall m = m := by
  induction calls generalizing m with
  | nil => rfl
  | cons c rest ih =>
    cases c <;> simp [marginCalls] at h <;> simp [List.foldl, applyCall, ih _ h]

/-- The applied margins of a trace extended by further calls. -/
theorem appliedMargins_append (a b : List Call) :
    appliedMargins (a ++ b) = b.foldl applyCall (appliedMargins a) := by
  simp [appliedMargins, List.foldl_append]

/-- The hit-test emulator never sets content margins. -/
theorem hitTestNCA_marginCalls (self : GuiTabInTitlebar) (env : Env) (msg : MSG)
    (mmi : MINMAXINFO) (h : Handled) (hh : hitTestNCA self env msg mmi = some h) :
    marginCalls h.calls = 0 := by
  unfold hitTestNCA at hh
  cases hcw : self.tabAreaCornerWidget <;> simp only [hcw] at hh <;>
    split_ifs at hh <;> cases hh <;> simp [hitTestGrid, marginCalls]

/-- The message handler never sets content margins. -/
theorem handleWinEvent_marginCalls (self : GuiTabInTitlebar) (env : Env) (msg : MSG)
    (mmi : MINMAXINFO) (h : Handled) (hh : handleWinEvent self env msg mmi = some h) :
    marginCalls h.calls = 0 := by
  unfold handleWinEvent at hh
  split_ifs at hh with h1 h2
  · injection hh with hh; subst hh; rfl
  · exact hitTestNCA_marginCalls self env msg mmi h hh
  · injection hh with hh; subst hh
    by_cases ha : msg.message = WM_ACTIVATE <;> simp [ha, marginCalls]

/-- A window-state change establishes the geometry invariant for the new state, whatever
held before. -/
theorem stateChange_invariant (sty : Style) (wd : World) (s : Nat) :
    GeometryInvariant sty s
      { self := (handleWindowStateChangeEvent wd.self sty s).1,
        trace := wd.trace ++ (handleWindowStateChangeEvent wd.self sty s).2 } := by
  unfold GeometryInvariant
  by_cases hm : s &&& WindowMaximized ≠ 0
  · have hb := (maximized_iff_testBit s).mp hm
    simp [handleWindowStateChangeEvent, hm, hb, appliedMargins_append, applyCall]
  · have hb : s.testBit 1 = false := by
      rw [maximized_iff_testBit] at hm; simpa using hm
    simp [handleWindowStateChangeEvent, hm, hb, appliedMargins_append, applyCall]

/-- Every operation keeps the geometry invariant, for the state it leaves as the last
one seen. -/
theorem step_invariant (sty : Style) (wd wd1 : World) (env : Env) (op : Op) (s0 : Nat)
    (hinv : GeometryInvariant sty s0 wd) (hstep : step sty wd env op = some wd1) :
    GeometryInvariant sty (lastState s0 [(env, op)]) wd1 := by
  cases op with
  | handleWindowStateChangeEvent s =>
    simp only [step, Option.some.injEq] at hstep
    subst hstep
    exact stateChange_invariant sty wd s
  | handleWinEvent msg mmi =>
    simp only [step] at hstep
    cases hh : handleWinEvent wd.self env msg mmi with
    | none => rw [hh] at hstep; cases hstep
    | some h =>
      rw [hh] at hstep
      simp only [Option.map_some', Option.some.injEq] at hstep
      subst hstep
      have hz := handleWinEvent_marginCalls wd.self env msg mmi h hh
      unfold GeometryInvariant at hinv ⊢
      simp only [lastState, appliedMargins_append,
        foldl_applyCall_of_marginCalls_zero _ _ hz]
      exact hinv
  | setTabAreaCornerWidget w =>
    simp only [step] at hstep
    unfold setTabAreaCornerWidget at hstep
    unfold GeometryInvariant at hinv ⊢
    split_ifs at hstep
    · simp only [Option.map_some', Option.some.injEq] at hstep
      subst hstep
      simpa [lastState, appliedMargins_append, applyCall] using hinv
    · cases w with
      | none => simp at hstep
      | some v =>
        simp only [Option.map_some', Option.some.injEq] at hstep
        subst hstep
        simpa [lastState, appliedMargins_append, applyCall] using hinv

/-- The last state seen after one more operation. -/
theorem lastState_cons (s0 : Nat) (env : Env) (op : Op) (rest : List (Env × Op)) :
    lastState s0 ((env, op) :: rest) = lastState (lastState s0 [(env, op)]) rest := by
  cases op <;> rfl

/-- The geometry invariant holds along every sequence of operations. -/
theorem run_invariant (sty : Style) (steps : List (Env × Op)) (wd0 wd : World) (s0 : Nat)
    (hinv : GeometryInvariant sty s0 wd0) (hrun : run sty wd0 steps = some wd) :
    GeometryInvariant sty (lastState s0 steps) wd := by
  induction steps generalizing wd0 s0 with
  | nil =>
    simp only [run, Option.some.injEq] at hrun
    subst hrun
    exact hinv
  | cons p rest ih =>
    obtain ⟨env, op⟩ := p
    simp only [run] at hrun
    cases hstep : step sty wd0 env op with
    | none => rw [hstep] at hrun; cases hrun
    | some wd1 =>
      rw [hstep] at hrun
      rw [lastState_cons]
      exact ih wd1 _ (step_invariant sty wd0 wd1 env op s0 hinv hstep) hrun

/-- Construction with composition active establishes the geometry invariant for the
window's state at construction. -/
theorem init_invariant (env0 : Env) (sty : Style) (u : Indeterminate)
    (hgate : env0.dwmIsCompositionEnabled = true) :
    GeometryInvariant sty env0.windowState (World.init env0 sty true u) := by
  unfold GeometryInvariant
  by_cases hm : env0.windowState &&& WindowMaximized ≠ 0
  · have hb := (maximized_iff_testBit _).mp hm
    simp [World.init, construct, hgate, handleWindowStateChangeEvent, hm, hb,
      appliedMargins, applyCall]
  · have hb : env0.windowState.testBit 1 = false := by
      rw [maximized_iff_testBit] at hm; simpa using hm
    simp [World.init, construct, hgate, handleWindowStateChangeEvent, hm, hb,
      appliedMargins, applyCall]

/-- A controller constructed with the gate inactive has `isCompositionEnabled` false. -/
theorem init_inert (env0 : Env) (sty : Style) (enable : Bool) (u : Indeterminate)
    (hgate : enable = false ∨ env0.dwmIsCompositionEnabled = false) :
    (World.init env0 sty enable u).self.isCompositionEnabled = false := by
  rcases hgate with h | h
  · simp [World.init, construct, h]
  · cases enable <;> simp [World.init, construct, h]

/-- On an inert controller every operation returns and leaves the controller inert. -/
theorem step_inert (sty : Style) (wd : World) (env : Env) (op : Op)
    (hoff : wd.self.isCompositionEnabled = false) :
    ∃ wd1, step sty wd env op = some wd1 ∧ wd1.self.isCompositionEnabled = false := by
  cases op with
  | handleWindowStateChangeEvent s =>
    refine ⟨_, rfl, ?_⟩
    simp only [handleWindowStateChangeEvent]
    split_ifs <;> exact hoff
  | handleWinEvent msg mmi =>
    simp [step, handleWinEvent, hoff]
  | setTabAreaCornerWidget w =>
    simp [step, setTabAreaCornerWidget, hoff]

/-- On an inert controller every sequence of operations returns and leaves the
controller inert. -/
theorem run_inert (sty : Style) (steps : List (Env × Op)) (wd : World)
    (hoff : wd.self.isCompositionEnabled = false) :
    ∃ wd1, run sty wd steps = some wd1 ∧ wd1.self.isCompositionEnabled = false := by
  induction steps generalizing wd with
  | nil => exact ⟨wd, rfl, hoff⟩
  | cons p rest ih =>
    obtain ⟨env, op⟩ := p
    obtain ⟨wd1, h1, hoff1⟩ := step_inert sty wd env op hoff
    obtain ⟨wd2, h2, hoff2⟩ := ih wd1 hoff1
    exact ⟨wd2, by simp only [run, h1, h2], hoff2⟩

/-! ## The controller over its lifetime -/

/-- C8: in every state reached from a controller constructed with composition active by
a sequence of `handleWindowStateChangeEvent`, `handleWinEvent` and
`setTabAreaCornerWidget` calls (style metrics fixed), the content margins last applied
are `(windowFrameWidth, titlebarFrameWidth, windowFrameWidth, windowFrameWidth)`, and
the frame widths are those of the profile selected by the window state seen last (the
state at construction if none came later): both zero when its maximized flag is set;
otherwise the border metric and the `int` value of `3*h/4` that line 201 computes, which
is the truncating quotient `3*h/4` whenever the product `3*h` fits in a 32-bit `int`. -/
theorem C8_margins_follow_last_state (env0 : Env) (sty : Style) (u : Indeterminate)
    (steps : List (Env × Op)) (wd : World)
    (hgate : env0.dwmIsCompositionEnabled = true)
    (hrun : run sty (World.init env0 sty true u) steps = some wd) :
    appliedMargins wd.trace
        = some (wd.self.window_frame_width, wd.self.titlebar_frame_width,
                wd.self.window_frame_width, wd.self.window_frame_width)
    ∧ ((lastState env0.windowState steps).testBit 1 = true →
        wd.self.window_frame_width = 0 ∧ wd.self.titlebar_frame_width = 0)
    ∧ ((lastState env0.windowState steps).testBit 1 = false →
        wd.self.window_frame_width = sty.PM_MdiSubWindowFrameWidth
        ∧ wd.self.titlebar_frame_width = Int.tdiv (toInt32 (3 * sty.PM_TitleBarHeight)) 4
        ∧ (-2147483648 ≤ 3 * sty.PM_TitleBarHeight → 3 * sty.PM_TitleBarHeight ≤ 2147483647 →
            wd.self.titlebar_frame_width = Int.tdiv (3 * sty.PM_TitleBarHeight) 4)) := by
  obtain ⟨hm, hmax, hnorm⟩ :=
    run_invariant sty steps _ wd env0.windowState (init_invariant env0 sty u hgate) hrun
  refine ⟨hm, hmax, fun hs => ⟨(hnorm hs).1, (hnorm hs).2, fun hlo hhi => ?_⟩⟩
  rw [(hnorm hs).2, toInt32_of_fits _ hlo hhi]

/-- C8 on the session of the worked examples (maximize, activate, set the corner
widget, hit-test, query the maximum size, restore), started on a normal window with
border 8 and caption height 30: the session runs, and ends with frame widths 8 and 22
and applied margins `(8, 22, 8, 8)`. -/
theorem C8_margins_follow_last_state_witness :
    ∃ wd, run exampleStyle
        (World.init (exampleEnv exampleRect 8 threeTabs (false, 0) 16) exampleStyle true
          exampleGarbage) exampleSteps = some wd
      ∧ wd.self.window_frame_width = 8 ∧ wd.self.titlebar_frame_width = 22
      ∧ appliedMargins wd.trace = some (8, 22, 8, 8) := by
  obtain ⟨wd, hwd⟩ : ∃ wd, run exampleStyle
      (World.init (exampleEnv exampleRect 8 threeTabs (false, 0) 16) exampleStyle true
        exampleGarbage) exampleSteps = some wd := ⟨_, rfl⟩
  obtain ⟨hm, -, hn⟩ :=
    C8_margins_follow_last_state (exampleEnv exampleRect 8 threeTabs (false, 0) 16)
      exampleStyle exampleGarbage exampleSteps wd rfl hwd
  obtain ⟨hw, -, ht⟩ := hn (by decide)
  have hw8 : wd.self.window_frame_width = 8 := hw
  have ht22 : wd.self.titlebar_frame_width = 22 := by
    rw [ht (by decide) (by decide)]; decide
  refine ⟨wd, hwd, hw8, ht22, ?_⟩
  rw [hm, hw8, ht22]

/-- C9 fails on the code: on a controller whose gate is inactive (feature disabled, or
compositor unavailable), a window-state-change notification makes exactly one
`setContentsMargins` call, for every state `s`. -/
theorem C9_inert_state_change_applies_margins (env0 env1 : Env) (sty : Style)
    (u : Indeterminate) (s : Nat) :
    (∃ wd, run sty (World.init env0 sty false u)
          [(env1, Op.handleWindowStateChangeEvent s)] = some wd
        ∧ wd.self.isCompositionEnabled = false ∧ marginCalls wd.trace = 1)
    ∧ (∃ wd, run sty (World.init { env0 with dwmIsCompositionEnabled := false } sty true u)
          [(env1, Op.handleWindowStateChangeEvent s)] = some wd
        ∧ wd.self.isCompositionEnabled = false ∧ marginCalls wd.trace = 1) := by
  by_cases hm : s &&& WindowMaximized ≠ 0
  · simp [run, step, World.init, construct, handleWindowStateChangeEvent, hm, marginCalls]
  · simp [run, step, World.init, construct, handleWindowStateChangeEvent, hm, marginCalls]

/-- C10: on a controller whose gate is inactive (enable flag false, or compositor
unavailable at construction), every sequence of operations returns, leaves the
controller inert, and after it `handleWinEvent` answers every message (whatever the
collaborators would answer) by returning not-handled without assigning the result,
without any call (no hit-test emulator, no default handling, no frame extension) and
with the maximum-size record as it was. -/
theorem C10_inert_controller_passes_through (env0 : Env) (sty : Style) (enable : Bool)
    (u : Indeterminate)
    (hgate : enable = false ∨ env0.dwmIsCompositionEnabled = false)
    (steps : List (Env × Op)) (env : Env) (msg : MSG) (mmi : MINMAXINFO) :
    ∃ wd, run sty (World.init env0 sty enable u) steps = some wd
      ∧ wd.self.isCompositionEnabled = false
      ∧ handleWinEvent wd.self env msg mmi
          = some { ret := false, result := none, mmi := mmi, calls := [] } := by
  obtain ⟨wd, hrun, hoff⟩ :=
    run_inert sty steps _ (init_inert env0 sty enable u hgate)
  exact ⟨wd, hrun, hoff, by simp [handleWinEvent, hoff]⟩

/-- C10 with the compositor unavailable, after the session of the worked examples, on a
hit-test message for the point `(380, 154)`. -/
theorem C10_inert_controller_passes_through_witness :
    ∃ wd, run exampleStyle (World.init exampleEnvNoDwm exampleStyle true exampleGarbage)
        exampleSteps = some wd
      ∧ wd.self.isCompositionEnabled = false
      ∧ handleWinEvent wd.self (exampleEnv exampleRect 8 threeTabs (false, 0) 16)
          (hitTestMsg 380 154) zeroMMI
          = some { ret := false, result := none, mmi := zeroMMI, calls := [] } :=
  C10_inert_controller_passes_through exampleEnvNoDwm exampleStyle true exampleGarbage
    (Or.inr rfl) exampleSteps (exampleEnv exampleRect 8 threeTabs (false, 0) 16)
    (hitTestMsg 380 154) zeroMMI

/-! ## The message dispatch -/

/-- C11: with composition active, a maximum-size query on a work area of width `W` and
height `H` sets the proposed maximum size to `(W, H - 1)` and the proposed maximum
position to `(0, 0)`, leaves the rest of the record, and is reported as handled with
result 0, whatever the default non-client handling answered. -/
theorem C11_max_size_query (self : GuiTabInTitlebar) (env : Env) (msg : MSG)
    (mmi : MINMAXINFO) (W H : Int)
    (hon : self.isCompositionEnabled = true)
    (hmsg : msg.message = WM_GETMINMAXINFO)
    (hW : env.availableGeometry.width = W) (hH : env.availableGeometry.height = H) :
    handleWinEvent self env msg mmi
      = some { ret := true, result := some 0,
               mmi := { mmi with ptMaxSize := { x := W, y := H - 1 },
                                 ptMaxPosition := { x := 0, y := 0 } },
               calls := [Call.dwmDefWindowProc msg] } := by
  subst hW hH
  simp [handleWinEvent, hon, hmsg]

/-- C11 on the work area 1920 by 1040, the default handling answering "handled, 77": the
proposed maximum size is `(1920, 1039)` at position `(0, 0)`. -/
theorem C11_max_size_query_witness :
    handleWinEvent (exampleSelf none) (exampleEnv exampleRect 8 threeTabs (true, 77) 16)
        minMaxMsg zeroMMI
      = some { ret := true, result := some 0,
               mmi := { zeroMMI with ptMaxSize := { x := 1920, y := 1039 },
                                     ptMaxPosition := { x := 0, y := 0 } },
               calls := [Call.dwmDefWindowProc minMaxMsg] } :=
  C11_max_size_query (exampleSelf none) (exampleEnv exampleRect 8 threeTabs (true, 77) 16)
    minMaxMsg zeroMMI 1920 1040 rfl rfl (by decide) (by decide)

/-- C12 fails on the code: with the taskbar docked at the top (work area
`(0,40)-(1919,1079)`) the answer to a maximum-size query is position `(0, 0)` with size
`(1920, 1039)`; its top edge 0 is above the work area's top edge 40, so the rectangle
covers rows 0 to 39, which are outside the work area. -/
theorem C12_max_rect_leaves_work_area :
    ∃ h, handleWinEvent (exampleSelf none) topTaskbarEnv minMaxMsg zeroMMI = some h
      ∧ h.mmi.ptMaxPosition = { x := 0, y := 0 }
      ∧ h.mmi.ptMaxSize = { x := 1920, y := 1039 }
      ∧ topTaskbarEnv.availableGeometry.y1 = 40
      ∧ ¬ (topTaskbarEnv.availableGeometry.y1 ≤ h.mmi.ptMaxPosition.y) :=
  ⟨_, rfl, by decide, by decide, by decide, by decide⟩

/-- C13 as stated fails: with composition active, the message `WM_NCLBUTTONDOWN` is none
of activation, hit-test, size calculation and maximum-size query, and when the default
non-client handling reports it as handled with result 5, `handleWinEvent` reports it as
handled and writes the result 5. -/
theorem C13_other_messages_counterexample :
    (buttonDownMsg.message ≠ WM_ACTIVATE ∧ buttonDownMsg.message ≠ WM_NCHITTEST
      ∧ buttonDownMsg.message ≠ WM_NCCALCSIZE ∧ buttonDownMsg.message ≠ WM_GETMINMAXINFO)
    ∧ (exampleSelf none).isCompositionEnabled = true
    ∧ (exampleEnv exampleRect 8 threeTabs (true, 5) 16).dwmDefWindowProc buttonDownMsg
        = (true, 5)
    ∧ (handleWinEvent (exampleSelf none) (exampleEnv exampleRect 8 threeTabs (true, 5) 16)
        buttonDownMsg zeroMMI).map (fun h => (h.ret, h.result))
      = some (true, some 5) := by
  refine ⟨by decide, by decide, by decide, by decide⟩

/-- C13, amended: with composition active, for every message whose identifier is none of
activation, non-client hit-test, non-client size calculation and maximum-size query,
`handleWinEvent` calls the default non-client handling and nothing else, and leaves the
maximum-size record; if that handling reports the message as not handled,
`handleWinEvent` reports not handled and does not write the result; if it reports
handled with result `r`, `handleWinEvent` reports handled with result `r`. -/
theorem C13_other_messages_amended (self : GuiTabInTitlebar) (env : Env) (msg : MSG)
    (mmi : MINMAXINFO)
    (hon : self.isCompositionEnabled = true)
    (h1 : msg.message ≠ WM_ACTIVATE) (h2 : msg.message ≠ WM_NCHITTEST)
    (h3 : msg.message ≠ WM_NCCALCSIZE) (h4 : msg.message ≠ WM_GETMINMAXINFO) :
    ((env.dwmDefWindowProc msg).1 = false →
      handleWinEvent self env msg mmi
        = some { ret := false, result := none, mmi := mmi,
                 calls := [Call.dwmDefWindowProc msg] })
    ∧ (∀ r, env.dwmDefWindowProc msg = (true, r) →
      handleWinEvent self env msg mmi
        = some { ret := true, result := some r, mmi := mmi,
                 calls := [Call.dwmDefWindowProc msg] }) := by
  constructor
  · intro hd
    simp [handleWinEvent, hon, h1, h2, h3, h4, hd]
  · intro r hd
    simp [handleWinEvent, hon, h1, h2, h3, h4, hd]

/-- C13 amended, on `WM_NCLBUTTONDOWN`: forwarded when the default handling reports
nothing, answered with 5 when the default handling answers 5. -/
theorem C13_other_messages_amended_witness :
    handleWinEvent (exampleSelf none) (exampleEnv exampleRect 8 threeTabs (false, 0) 16)
        buttonDownMsg zeroMMI
      = some { ret := false, result := none, mmi := zeroMMI,
               calls := [Call.dwmDefWindowProc buttonDownMsg] }
    ∧ handleWinEvent (exampleSelf none) (exampleEnv exampleRect 8 threeTabs (true, 5) 16)
        buttonDownMsg zeroMMI
      = some { ret := true, result := some 5, mmi := zeroMMI,
               calls := [Call.dwmDefWindowProc buttonDownMsg] } :=
  ⟨(C13_other_messages_amended (exampleSelf none)
      (exampleEnv exampleRect 8 threeTabs (false, 0) 16) buttonDownMsg zeroMMI rfl
      (by decide) (by decide) (by decide) (by decide)).1 rfl,
   (C13_other_messages_amended (exampleSelf none)
      (exampleEnv exampleRect 8 threeTabs (true, 5) 16) buttonDownMsg zeroMMI rfl
      (by decide) (by decide) (by decide) (by decide)).2 5 rfl⟩

/-- C14: with composition active, a non-client size-calculation message whose `wParam`
is `TRUE` is reported as handled with result 0, whatever the default non-client handling
answered; the maximum-size record is left as it was. -/
theorem C14_calc_size_suppressed (self : GuiTabInTitlebar) (env : Env) (msg : MSG)
    (mmi : MINMAXINFO)
    (hon : self.isCompositionEnabled = true)
    (hmsg : msg.message = WM_NCCALCSIZE) (hw : msg.wParam = TRUE) :
    handleWinEvent self env msg mmi
      = some { ret := true, result := some 0, mmi := mmi,
               calls := [Call.dwmDefWindowProc msg] } := by
  simp [handleWinEvent, hon, hmsg, hw]

/-- C14 with the default handling answering "handled, 77", and answering nothing. -/
theorem C14_calc_size_suppressed_witness :
    handleWinEvent (exampleSelf none) (exampleEnv exampleRect 8 threeTabs (true, 77) 16)
        calcSizeMsg zeroMMI
      = some { ret := true, result := some 0, mmi := zeroMMI,
               calls := [Call.dwmDefWindowProc calcSizeMsg] }
    ∧ handleWinEvent (exampleSelf none) (exampleEnv exampleRect 8 threeTabs (false, 0) 16)
        calcSizeMsg zeroMMI
      = some { ret := true, result := some 0, mmi := zeroMMI,
               calls := [Call.dwmDefWindowProc calcSizeMsg] } :=
  ⟨C14_calc_size_suppressed (exampleSelf none)
      (exampleEnv exampleRect 8 threeTabs (true, 77) 16) calcSizeMsg zeroMMI rfl rfl rfl,
   C14_calc_size_suppressed (exampleSelf none)
      (exampleEnv exampleRect 8 threeTabs (false, 0) 16) calcSizeMsg zeroMMI rfl rfl rfl⟩

/-- C15: with composition active, an activation message makes `handleWinEvent` call the
default handling and then issue exactly one frame-extension request, all four margins
-1; whatever the request returns and whatever the default handling answered, it returns
not-handled without writing the result and with the maximum-size record as it was; as an
operation it leaves the controller unchanged, so the next activation message is answered
the same way. -/
theorem C15_activation_extends_frame (sty : Style) (wd : World) (env : Env) (msg : MSG)
    (mmi : MINMAXINFO)
    (hon : wd.self.isCompositionEnabled = true)
    (hmsg : msg.message = WM_ACTIVATE) :
    handleWinEvent wd.self env msg mmi
      = some { ret := false, result := none, mmi := mmi,
               calls := [Call.dwmDefWindowProc msg,
                         Call.dwmExtendFrameIntoClientArea msg.hwnd
                           { cxLeftWidth := -1, cxRightWidth := -1,
                             cyTopHeight := -1, cyBottomHeight := -1 }] }
    ∧ step sty wd env (Op.handleWinEvent msg mmi)
      = some { self := wd.self,
               trace := wd.trace ++ [Call.dwmDefWindowProc msg,
                         Call.dwmExtendFrameIntoClientArea msg.hwnd
                           { cxLeftWidth := -1, cxRightWidth := -1,
                             cyTopHeight := -1, cyBottomHeight := -1 }] } := by
  have h : handleWinEvent wd.self env msg mmi
      = some { ret := false, result := none, mmi := mmi,
               calls := [Call.dwmDefWindowProc msg,
                         Call.dwmExtendFrameIntoClientArea msg.hwnd
                           { cxLeftWidth := -1, cxRightWidth := -1,
                             cyTopHeight := -1, cyBottomHeight := -1 }] } := by
    simp [handleWinEvent, hon, hmsg]
  exact ⟨h, by simp [step, h]⟩

/-- C15 with a compositor that rejects the request and a default handling that answers
"handled, 77": the activation message is still passed on, with one full-extension
request made and the controller as it was. -/
theorem C15_activation_extends_frame_witness :
    failingExtendEnv.dwmExtendFrameIntoClientArea 1
        { cxLeftWidth := -1, cxRightWidth := -1, cyTopHeight := -1, cyBottomHeight := -1 } < 0
    ∧ handleWinEvent (exampleSelf none) failingExtendEnv activateMsg zeroMMI
      = some { ret := false, result := none, mmi := zeroMMI,
               calls := [Call.dwmDefWindowProc activateMsg,
                         Call.dwmExtendFrameIntoClientArea 1
                           { cxLeftWidth := -1, cxRightWidth := -1,
                             cyTopHeight := -1, cyBottomHeight := -1 }] }
    ∧ step exampleStyle { self := exampleSelf none, trace := [] } failingExtendEnv
        (Op.handleWinEvent activateMsg zeroMMI)
      = some { self := exampleSelf none,
               trace := [Call.dwmDefWindowProc activateMsg,
                         Call.dwmExtendFrameIntoClientArea 1
                           { cxLeftWidth := -1, cxRightWidth := -1,
                             cyTopHeight := -1, cyBottomHeight := -1 }] } :=
  ⟨by decide,
   C15_activation_extends_frame exampleStyle { self := exampleSelf none, trace := [] }
     failingExtendEnv activateMsg zeroMMI rfl rfl⟩

/-- C16: in the window `(100,100)-(900,700)` with `windowFrameWidth = 8`,
`titlebarFrameWidth = 24`, tab strip height 30 and a system top frame of 8 pixels, the
default hit-test reporting nothing: the point `(104, 105)` is `HTTOPLEFT`, the point
`(500, 110)` is `HTCAPTION` and the point `(500, 400)` is `HTNOWHERE` (not handled).
None of the three points is in the caption band, so this holds for every corner widget
(set or not), every corner-widget width and every tab strip. -/
theorem C16_scenario (cw : Option Nat) (tabAt : Int → Int → Int) (cwidth : Int)
    (mmi : MINMAXINFO) :
    (hitTestNCA (exampleSelf cw) (exampleEnv exampleRect 8 tabAt (false, 0) cwidth)
        (hitTestMsg 104 105) mmi).map (fun h => (h.ret, h.result))
      = some (true, some HTTOPLEFT)
    ∧ (hitTestNCA (exampleSelf cw) (exampleEnv exampleRect 8 tabAt (false, 0) cwidth)
        (hitTestMsg 500 110) mmi).map (fun h => (h.ret, h.result))
      = some (true, some HTCAPTION)
    ∧ (hitTestNCA (exampleSelf cw) (exampleEnv exampleRect 8 tabAt (false, 0) cwidth)
        (hitTestMsg 500 400) mmi).map (fun h => (h.ret, h.result))
      = some (false, some HTNOWHERE) := by
  have hx1 : GET_X_LPARAM (hitTestMsg 104 105).lParam = 104 := by decide
  have hy1 : GET_Y_LPARAM (hitTestMsg 104 105).lParam = 105 := by decide
  have hx2 : GET_X_LPARAM (hitTestMsg 500 110).lParam = 500 := by decide
  have hy2 : GET_Y_LPARAM (hitTestMsg 500 110).lParam = 110 := by decide
  have hx3 : GET_X_LPARAM (hitTestMsg 500 400).lParam = 500 := by decide
  have hy3 : GET_Y_LPARAM (hitTestMsg 500 400).lParam = 400 := by decide
  refine ⟨?_, ?_, ?_⟩
  · obtain ⟨calls, hc⟩ := hitTestNCA_grid (exampleSelf cw)
      (exampleEnv exampleRect 8 tabAt (false, 0) cwidth) (hitTestMsg 104 105) mmi rfl
      (Or.inl (by rw [hx1, hy1]; simp [exampleEnv, exampleRect, exampleSelf]))
    rw [hc, hx1, hy1]; rfl
  · obtain ⟨calls, hc⟩ := hitTestNCA_grid (exampleSelf cw)
      (exampleEnv exampleRect 8 tabAt (false, 0) cwidth) (hitTestMsg 500 110) mmi rfl
      (Or.inl (by rw [hx2, hy2]; simp [exampleEnv, exampleRect, exampleSelf]))
    rw [hc, hx2, hy2]; rfl
  · obtain ⟨calls, hc⟩ := hitTestNCA_grid (exampleSelf cw)
      (exampleEnv exampleRect 8 tabAt (false, 0) cwidth) (hitTestMsg 500 400) mmi rfl
      (Or.inl (by rw [hx3, hy3]; simp [exampleEnv, exampleRect, exampleSelf]))
    rw [hc, hx3, hy3]; rfl

/-- C17 fails on the code: a controller constructed with composition active has no
corner widget (`tabAreaCornerWidget` is `NULL`), and a hit-test at the point
`(300, 130)` of the window `(100,100)-(900,700)`, which is inside the caption band
(`p = (192, 8)`, tab strip height 30) and which the default hit-test does not answer,
reaches `tabAreaCornerWidget->width()` on the absent widget: `hitTestNCA` has no
classification there, and neither has `handleWinEvent`. -/
theorem C17_absent_corner_widget_is_dereferenced :
    (construct (exampleEnv exampleRect 8 threeTabs (false, 0) 16) exampleStyle true
        exampleGarbage).1
      = { tabAreaCornerWidget := none, isCompositionEnabled := true, tabbar_height := 30,
          window_frame_width := 8, titlebar_frame_width := 22 }
    ∧ hitTestNCA
        (construct (exampleEnv exampleRect 8 threeTabs (false, 0) 16) exampleStyle true
          exampleGarbage).1
        (exampleEnv exampleRect 8 threeTabs (false, 0) 16) (hitTestMsg 300 130) zeroMMI
      = none
    ∧ run exampleStyle
        (World.init (exampleEnv exampleRect 8 threeTabs (false, 0) 16) exampleStyle true
          exampleGarbage)
        [(exampleEnv exampleRect 8 threeTabs (false, 0) 16,
          Op.handleWinEvent (hitTestMsg 300 130) zeroMMI)]
      = none := by
  refine ⟨by decide, by decide, by decide⟩

/-! ## The tab strip height and the caption band -/

/-- C18: `tabbar_height` has two sources.  After construction with composition active it
is the caption-height style metric, and no corner widget is recorded.  With composition
active, `setTabAreaCornerWidget(w)` records `w`, places it at the top-left corner and
sets `tabbar_height` to the height of `w`'s size hint.  With composition inactive,
`setTabAreaCornerWidget(w)` places `w` at the top-right corner and leaves the controller
as it was.  The other two operations assign neither member. -/
theorem C18_tab_strip_height_sources (env0 env : Env) (sty : Style) (u : Indeterminate)
    (self : GuiTabInTitlebar) (w : Nat) (w0 : Option Nat) (s : Nat) (tr : List Call) :
    (env0.dwmIsCompositionEnabled = true →
      (construct env0 sty true u).1.tabbar_height = sty.PM_TitleBarHeight
      ∧ (construct env0 sty true u).1.tabAreaCornerWidget = none)
    ∧ (self.isCompositionEnabled = true →
      setTabAreaCornerWidget self env (some w)
        = some ({ self with tabAreaCornerWidget := some w,
                            tabbar_height := env.sizeHintHeight w },
                [Call.setCornerWidget (some w) Corner.TopLeftCorner,
                 Call.cornerWidgetSizeHint w]))
    ∧ (self.isCompositionEnabled = false →
      setTabAreaCornerWidget self env w0
        = some (self, [Call.setCornerWidget w0 Corner.TopRightCorner]))
    ∧ ((handleWindowStateChangeEvent self sty s).1.tabbar_height = self.tabbar_height
      ∧ (handleWindowStateChangeEvent self sty s).1.tabAreaCornerWidget
          = self.tabAreaCornerWidget)
    ∧ (∀ msg mmi wd1,
        step sty { self := self, trace := tr } env (Op.handleWinEvent msg mmi) = some wd1 →
        wd1.self = self) := by
  refine ⟨?_, ?_, ?_, ?_, ?_⟩
  · intro hgate
    by_cases hm : env0.windowState &&& WindowMaximized ≠ 0
    · simp [construct, hgate, handleWindowStateChangeEvent, hm]
    · simp [construct, hgate, handleWindowStateChangeEvent, hm]
  · intro hon
    simp [setTabAreaCornerWidget, hon]
  · intro hoff
    simp [setTabAreaCornerWidget, hoff]
  · simp only [handleWindowStateChangeEvent]
    split_ifs <;> simp
  · intro msg mmi wd1 hstep
    simp only [step] at hstep
    cases hh : handleWinEvent self env msg mmi with
    | none => rw [hh] at hstep; cases hstep
    | some h =>
      rw [hh] at hstep
      simp only [Option.map_some', Option.some.injEq] at hstep
      rw [← hstep]

/-- C18 on the worked examples: construction with caption height 30 gives tab strip
height 30 and no corner widget; setting the corner widget 7 (size hint height 30, here
on a controller whose tab strip height was 12) records it at the top-left; on an inert
controller the widget goes to the top-right and nothing is recorded. -/
theorem C18_tab_strip_height_sources_witness :
    ((construct (exampleEnv exampleRect 8 threeTabs (false, 0) 16) exampleStyle true
        exampleGarbage).1.tabbar_height = 30
      ∧ (construct (exampleEnv exampleRect 8 threeTabs (false, 0) 16) exampleStyle true
        exampleGarbage).1.tabAreaCornerWidget = none)
    ∧ setTabAreaCornerWidget { exampleSelf none with tabbar_height := 12 }
        (exampleEnv exampleRect 8 threeTabs (false, 0) 16) (some 7)
      = some ({ exampleSelf (some 7) with tabbar_height := 30 },
              [Call.setCornerWidget (some 7) Corner.TopLeftCorner,
               Call.cornerWidgetSizeHint 7])
    ∧ setTabAreaCornerWidget { exampleSelf none with isCompositionEnabled := false }
        (exampleEnv exampleRect 8 threeTabs (false, 0) 16) (some 7)
      = some ({ exampleSelf none with isCompositionEnabled := false },
              [Call.setCornerWidget (some 7) Corner.TopRightCorner]) :=
  ⟨(C18_tab_strip_height_sources (exampleEnv exampleRect 8 threeTabs (false, 0) 16)
      (exampleEnv exampleRect 8 threeTabs (false, 0) 16) exampleStyle exampleGarbage
      (exampleSelf none) 7 none 0 []).1 rfl,
   (C18_tab_strip_height_sources (exampleEnv exampleRect 8 threeTabs (false, 0) 16)
      (exampleEnv exampleRect 8 threeTabs (false, 0) 16) exampleStyle exampleGarbage
      { exampleSelf none with tabbar_height := 12 } 7 none 0 []).2.1 rfl,
   (C18_tab_strip_height_sources (exampleEnv exampleRect 8 threeTabs (false, 0) 16)
      (exampleEnv exampleRect 8 threeTabs (false, 0) 16) exampleStyle exampleGarbage
      { exampleSelf none with isCompositionEnabled := false } 7 (some 7) 0 []).2.2.1 rfl⟩

/-- With a window frame width of zero the side columns and the bottom row of the grid
are empty: the grid answers `HTTOP`, `HTCAPTION` or `HTNOWHERE`. -/
theorem hitTestGrid_zero_frame (self : GuiTabInTitlebar) (rc rcFrame : RECT) (x y : Int)
    (mmi : MINMAXINFO) (calls : List Call) (hwf : self.window_frame_width = 0) :
    (hitTestGrid self rc rcFrame x y mmi calls).result = some HTTOP
    ∨ (hitTestGrid self rc rcFrame x y mmi calls).result = some HTCAPTION
    ∨ (hitTestGrid self rc rcFrame x y mmi calls).result = some HTNOWHERE := by
  have hcol : uCol self rc x = 1 := by
    simp only [uCol, hwf, ge_iff_le]
    rw [if_neg (by omega), if_neg (by omega)]
  have hrow : uRow self rc y = 0 ∨ uRow self rc y = 1 := by
    simp only [uRow, hwf, ge_iff_le]
    split_ifs
    · exact Or.inl rfl
    · omega
    · exact Or.inr rfl
  simp only [hitTestGrid, hcol]
  rcases hrow with h0 | h1
  · rw [h0]
    simp only [hitTests]
    split_ifs
    · exact Or.inl rfl
    · exact Or.inr (Or.inl rfl)
  · rw [h1]
    exact Or.inr (Or.inr rfl)

/-- C20: after `handleWindowStateChangeEvent` with a maximized state, for every window
rectangle, tab strip height and point for which the default hit-test reports nothing,
whatever `hitTestNCA` answers is one of `HTCLIENT`, `HTCAPTION`, `HTTOP` and
`HTNOWHERE`, never an edge or corner resize region; and when a corner widget is set it
does answer. -/
theorem C20_maximized_has_no_resize_regions (self : GuiTabInTitlebar) (sty : Style)
    (s : Nat) (env : Env) (msg : MSG) (mmi : MINMAXINFO)
    (hmax : s.testBit 1 = true)
    (hdwm : (env.dwmDefWindowProc msg).1 = false) :
    (∀ h, hitTestNCA (handleWindowStateChangeEvent self sty s).1 env msg mmi = some h →
      h.result = some HTCLIENT ∨ h.result = some HTCAPTION
      ∨ h.result = some HTTOP ∨ h.result = some HTNOWHERE)
    ∧ (self.tabAreaCornerWidget ≠ none →
      ∃ h, hitTestNCA (handleWindowStateChangeEvent self sty s).1 env msg mmi = some h) := by
  have hm := (maximized_iff_testBit s).mpr hmax
  have hself : (handleWindowStateChangeEvent self sty s).1
      = { self with window_frame_width := 0, titlebar_frame_width := 0 } := by
    simp only [handleWindowStateChangeEvent]
    rw [if_pos hm]
  rw [hself]
  have hgrid := fun calls =>
    hitTestGrid_zero_frame { self with window_frame_width := 0, titlebar_frame_width := 0 }
      (env.GetWindowRect msg.hwnd) env.rcFrame (GET_X_LPARAM msg.lParam)
      (GET_Y_LPARAM msg.lParam) mmi calls rfl
  constructor
  · intro h hh
    unfold hitTestNCA at hh
    simp only [hdwm, Bool.false_eq_true, if_false] at hh
    cases hcw : self.tabAreaCornerWidget <;> simp only [hcw] at hh <;>
      split_ifs at hh <;> cases hh
    all_goals first
      | exact Or.inl rfl
      | (rcases hgrid _ with h1 | h1 | h1
         · exact Or.inr (Or.inr (Or.inl h1))
         · exact Or.inr (Or.inl h1)
         · exact Or.inr (Or.inr (Or.inr h1)))
  · intro hcw
    obtain ⟨w, hw⟩ := Option.ne_none_iff_exists'.mp hcw
    unfold hitTestNCA
    simp only [hdwm, Bool.false_eq_true, if_false, hw]
    split_ifs <;> exact ⟨_, rfl⟩

/-- C20 on the worked examples, maximized (state 2): the point `(895, 400)`, which is
`HTRIGHT` in the normal profile, is `HTNOWHERE`, and the hit-test answers. -/
theorem C20_maximized_has_no_resize_regions_witness :
    (∀ h, hitTestNCA (handleWindowStateChangeEvent (exampleSelf (some 7)) exampleStyle 2).1
          (exampleEnv exampleRect 8 noTabs (false, 0) 16) (hitTestMsg 895 400) zeroMMI
          = some h →
      h.result = some HTCLIENT ∨ h.result = some HTCAPTION
      ∨ h.result = some HTTOP ∨ h.result = some HTNOWHERE)
    ∧ (hitTestNCA (handleWindowStateChangeEvent (exampleSelf (some 7)) exampleStyle 2).1
          (exampleEnv exampleRect 8 noTabs (false, 0) 16) (hitTestMsg 895 400)
          zeroMMI).map (fun h => h.result) = some (some HTNOWHERE) :=
  ⟨(C20_maximized_has_no_resize_regions (exampleSelf (some 7)) exampleStyle 2
      (exampleEnv exampleRect 8 noTabs (false, 0) 16) (hitTestMsg 895 400) zeroMMI
      (by decide) rfl).1,
   by decide⟩

end Qutty
